import Mathlib

/-!
Verification of `src/temporal-server-actions-count.py` against its
natural-language specification.

The Python program is shallowly embedded below.  Numeric sample values
(Python floats) are modelled as rationals `ℚ`; the sums, differences and
divisions performed by the program are exact at every value the claims
exercise.  Python exceptions are modelled explicitly with a `PyResult`
type that distinguishes normal return from a raised exception, and the
Python class-hierarchy fact needed by the loop handler (`KeyboardInterrupt`
is not a subclass of `Exception`) is recorded in `PyExc.isException`.
-/

namespace ActionsCount

/-! ## Data model: parsed metric families (output of `text_string_to_metric_families`) -/

/-- A parsed sample: a label set (a string-to-string dictionary, modelled as
an association list) and a numeric value. -/
structure Sample where
  labels : List (String × String)
  value : ℚ
deriving DecidableEq, Repr

/-- A parsed metric family: a name and its samples. -/
structure MetricFamily where
  name : String
  samples : List Sample
deriving DecidableEq, Repr

/-- Python `dict.get(k)`: `some` of the first binding of `k`, else `none`. -/
def dictGet (d : List (String × String)) (k : String) : Option String :=
  (d.find? (fun p => p.1 == k)).map (fun p => p.2)

/-! ## `get_action_count` (source lines 12-24)

The Python default argument `excluded_namespace="temporal_system"` is made
an explicit parameter here; every call in `main` uses the default, and the
embedded loop below passes `"temporal_system"` explicitly. -/

/-- Embedding of `get_action_count(metrics_data, included_namespace,
excluded_namespace)`: iterate over every family, and for families named
`"action"` add the value of every sample whose `namespace` label is not the
excluded namespace and either the inclusion filter is the empty string or
the `namespace` label equals it.  `sample.labels.get('namespace')` may be
`None` (here `none`) when the label is absent, exactly as in Python. -/
def get_action_count (metrics_data : List MetricFamily)
    (included_namespace excluded_namespace : String) : ℚ :=
  metrics_data.foldl
    (fun total_actions family =>
      if family.name = "action" then
        family.samples.foldl
          (fun acc sample =>
            let ns := dictGet sample.labels "namespace"
            if ns ≠ some excluded_namespace ∧
              (included_namespace = "" ∨ ns = some included_namespace) then
              acc + sample.value
            else acc)
          total_actions
      else total_actions)
    0

/-! ## Specification-side extraction (for the refinement claim C1) -/

/-- Modelled from the spec's words: a sample qualifies if its namespace
label differs from the excluded namespace and the inclusion filter is
empty or matches the namespace label. -/
def qualifies (included_namespace excluded_namespace : String)
    (sample : Sample) : Bool :=
  decide (dictGet sample.labels "namespace" ≠ some excluded_namespace) &&
    (decide (included_namespace = "") ||
      decide (dictGet sample.labels "namespace" = some included_namespace))

/-- Modelled from the spec's words: the sum of the `value` field of exactly
the qualifying samples of the families named `"action"`. -/
def extract_spec (metrics_data : List MetricFamily)
    (included_namespace excluded_namespace : String) : ℚ :=
  ((((metrics_data.filter (fun f => f.name == "action")).map
      (fun f => f.samples)).flatten.filter
        (qualifies included_namespace excluded_namespace)).map
          (fun s => s.value)).sum

/-- A snapshot with every sample labelled with the excluded namespace
`"temporal_system"` deleted (used to state that such samples never
contribute to the extracted count). -/
def dropExcluded (metrics_data : List MetricFamily) : List MetricFamily :=
  metrics_data.map (fun f =>
    ⟨f.name, f.samples.filter
      (fun s => dictGet s.labels "namespace" ≠ some "temporal_system")⟩)


/-! ## Python exceptions

The exceptions that can be raised inside the `try` block of `main`:
the `requests` errors raised by `requests.get` / `response.raise_for_status`,
a parse error from `text_string_to_metric_families`, and a
`KeyboardInterrupt` delivered by an external interrupt signal.  In Python,
`requests` errors and `ValueError` derive from `Exception`, while
`KeyboardInterrupt` derives only from `BaseException`; `except Exception`
therefore does not catch it.  `PyExc.isException` records this hierarchy. -/

inductive PyExc where
  | requestError (msg : String)
  | parseError (msg : String)
  | keyboardInterrupt
deriving DecidableEq, Repr

/-- Whether `except Exception` catches this exception: true for the
`requests` and parse errors, false for `KeyboardInterrupt`. -/
def PyExc.isException : PyExc → Bool
  | .requestError _ => true
  | .parseError _ => true
  | .keyboardInterrupt => false

/-- The diagnostic text interpolated by `print(f"An error occurred: {e}")`. -/
def PyExc.message : PyExc → String
  | .requestError m => m
  | .parseError m => m
  | .keyboardInterrupt => ""

/-- Outcome of running a Python function: a returned value or a raised
exception propagating to the caller. -/
inductive PyResult (α : Type) where
  | ret (a : α)
  | raised (e : PyExc)
deriving DecidableEq, Repr

/-! ## `scrape_metrics` (source lines 6-10)

The network interaction is an input to the embedded function: either
`requests.get` itself raises (network error), or it returns a response with
a status code and a body whose parse by `text_string_to_metric_families`
either succeeds with a list of families or raises on malformed text. -/

/-- The observable behaviour of the HTTP round trip and body parse that
`scrape_metrics` performs. -/
inductive ScrapeEnv where
  | netError (msg : String)
  | httpResponse (status : Nat) (parseResult : Except String (List MetricFamily))
deriving Repr

/-- Embedding of `scrape_metrics(prometheus_url)`: a failing `requests.get`
raises; `response.raise_for_status()` raises on any status in 400-599;
otherwise the body is parsed and the family list returned, with a parse
failure raising in turn.  Every failure path raises out of the function;
none returns a failure value. -/
def scrape_metrics : ScrapeEnv → PyResult (List MetricFamily)
  | .netError msg => .raised (.requestError msg)
  | .httpResponse status parseResult =>
    if 400 ≤ status ∧ status < 600 then
      .raised (.requestError ("HTTP error " ++ toString status))
    else
      match parseResult with
      | .error m => .raised (.parseError m)
      | .ok families => .ret families

/-- A scrape environment on which the fetch step fails: a network error, a
non-success status, or a malformed body. -/
def failureEnv : ScrapeEnv → Prop
  | .netError _ => True
  | .httpResponse status parseResult =>
    (400 ≤ status ∧ status < 600) ∨ ∃ m, parseResult = .error m

/-! ## The sampling loop of `main` (source lines 57-94)

One iteration of the `while True` loop either completes its `try` block
(scrape, extract, diff, sleep, window check) or an exception is raised
inside it.  An iteration's input is the scrape environment it encounters,
or the delivery of an external interrupt; the loop runs until the window
check breaks it (modelled as the input list running out), a caught
exception breaks it, or an uncaught exception aborts it.  Printed lines
are recorded as `Event`s. -/

/-- Input consumed by one loop iteration. -/
inductive IterInput where
  | scrape (env : ScrapeEnv)
  | interrupted
deriving Repr

/-- A line printed by the loop or by the epilogue of `main`. -/
inductive Event where
  | rateLine (r : ℚ)
  | errorLine (msg : String)
  | totalLine (total : ℚ)
  | completedLine
deriving DecidableEq, Repr

/-- The mutable loop state of `main`: `last_action_count` (Python `None`
initially) and `total_action_delta`. -/
structure LoopState where
  last_action_count : Option ℚ
  total_action_delta : ℚ
deriving DecidableEq, Repr

/-- The state at loop entry: `last_action_count = None`,
`total_action_delta = 0`. -/
def initState : LoopState := ⟨none, 0⟩

/-- How `main` ends: `finished` models falling through to the final two
`print` calls and returning (process exit code 0); `uncaught` models an
exception escaping `main` (no final total, abrupt termination with a
traceback and a nonzero process exit status). -/
inductive RunResult where
  | finished (events : List Event) (total : ℚ)
  | uncaught (events : List Event) (e : PyExc)
deriving DecidableEq, Repr

/-- The epilogue of `main` (source lines 93-94): print the total and the
completion message. -/
def finishRun (s : LoopState) (events : List Event) : RunResult :=
  .finished (events ++ [.totalLine s.total_action_delta, .completedLine])
    s.total_action_delta

/-- An exception raised inside the `try` block reaches
`except Exception as e` (source lines 88-90): if it is an `Exception`
it is caught, the diagnostic printed and the loop broken, after which the
epilogue still runs; otherwise it propagates out of `main`. -/
def handleRaised (e : PyExc) (s : LoopState) (events : List Event) : RunResult :=
  if e.isException then
    finishRun s (events ++ [.errorLine ("An error occurred: " ++ e.message)])
  else
    .uncaught events e

/-- Embedding of the sampling loop (source lines 61-90): each iteration
scrapes, extracts the count with `get_action_count` (inclusion filter
`included_namespace`, exclusion default `"temporal_system"`), and when
`last_action_count` is set adds `current - last` to the total and prints
the per-second rate `(current - last) / 1`; the input list running out
models the window check firing after the final processed iteration. -/
def runLoop (included_namespace : String) :
    List IterInput → LoopState → List Event → RunResult
  | [], s, events => finishRun s events
  | .interrupted :: _, s, events => handleRaised .keyboardInterrupt s events
  | .scrape env :: rest, s, events =>
    match scrape_metrics env with
    | .raised e => handleRaised e s events
    | .ret metrics_data =>
      let current := get_action_count metrics_data included_namespace "temporal_system"
      match s.last_action_count with
      | none =>
        runLoop included_namespace rest ⟨some current, s.total_action_delta⟩ events
      | some last =>
        runLoop included_namespace rest
          ⟨some current, s.total_action_delta + (current - last)⟩
          (events ++ [.rateLine ((current - last) / 1)])

/-- A run of `main` from the top of the loop. -/
def runMain (included_namespace : String) (inputs : List IterInput) : RunResult :=
  runLoop included_namespace inputs initState []

/-- The lines a run printed. -/
def RunResult.events : RunResult → List Event
  | .finished events _ => events
  | .uncaught events _ => events

/-- Whether the iteration consuming this input raises inside the `try`
block. -/
def iterRaises : IterInput → Bool
  | .interrupted => true
  | .scrape env =>
    match scrape_metrics env with
    | .raised _ => true
    | .ret _ => false

/-- How many loop iterations a run begins: the loop stops beginning new
iterations after the first one that raises. -/
def iterationsAttempted : List IterInput → Nat
  | [] => 0
  | i :: rest => if iterRaises i then 1 else 1 + iterationsAttempted rest

/-- The rate observations among a list of printed lines, in order. -/
def rateValues (events : List Event) : List ℚ :=
  events.filterMap (fun e =>
    match e with
    | .rateLine r => some r
    | _ => none)

/-- A convenient successful iteration input: status 200 and a body parsing
to the given families. -/
def okInput (metrics_data : List MetricFamily) : IterInput :=
  .scrape (.httpResponse 200 (.ok metrics_data))

/-- A snapshot holding one `action` family with a single sample of the
given value in namespace `default`. -/
def simpleSnap (v : ℚ) : List MetricFamily :=
  [⟨"action", [⟨[("namespace", "default")], v⟩]⟩]

/-- A run whose every iteration scrapes successfully, one snapshot per
iteration. -/
def okRun (snapshots : List (List MetricFamily)) : List IterInput :=
  snapshots.map okInput

/-! ## The `__main__` dispatch (source lines 96-109)

`argparse` requires `--time-window-seconds` and converts it with `int`;
the subsequent `if args.time_window_seconds:` tests the integer's
truthiness — a Python `int` is falsy exactly when it equals `0` — so a
supplied value of `0` takes the `print_readme()` branch. -/

/-- What the process does after argument parsing: run `main` (which starts
the sampling loop and fetches), or print the README text and fall off the
end of the script (exit code 0) without any fetch. -/
inductive ProgramAction where
  | monitor (time_window : Int) (prometheus_url included_namespace : String)
  | readme
deriving DecidableEq, Repr

/-- Embedding of the dispatch `if args.time_window_seconds: main(...) else:
print_readme()`. -/
def dispatch (time_window_seconds : Int)
    (prometheus_url included_namespace : String) : ProgramAction :=
  if time_window_seconds ≠ 0 then
    .monitor time_window_seconds prometheus_url included_namespace
  else
    .readme

/-- Whether the chosen action starts the sampling loop (and with it any
fetch): only `main` does. -/
def startsSampling : ProgramAction → Bool
  | .monitor _ _ _ => true
  | .readme => false

/-! ## Helper lemmas about `get_action_count` -/

theorem sample_foldl_eq (inc exc : String) (samples : List Sample) (t : ℚ) :
    samples.foldl
      (fun acc sample =>
        let ns := dictGet sample.labels "namespace"
        if ns ≠ some exc ∧ (inc = "" ∨ ns = some inc) then
          acc + sample.value
        else acc)
      t
    = t + ((samples.filter (qualifies inc exc)).map (fun s => s.value)).sum := by
  induction samples generalizing t with
  | nil => simp
  | cons s rest ih =>
    by_cases h : dictGet s.labels "namespace" ≠ some exc ∧
        (inc = "" ∨ dictGet s.labels "namespace" = some inc)
    · have hq : qualifies inc exc s = true := by
        simp only [qualifies, Bool.and_eq_true, Bool.or_eq_true,
          decide_eq_true_eq]
        exact ⟨h.1, h.2⟩
      simp only [List.foldl_cons, List.filter_cons, hq, if_pos h]
      rw [ih]
      simp
      ring
    · have hq : qualifies inc exc s = false := by
        simp only [qualifies, Bool.and_eq_false_iff, Bool.or_eq_false_iff,
          decide_eq_false_iff_not]
        tauto
      simp only [List.foldl_cons, List.filter_cons, hq, if_neg h]
      rw [ih]
      simp

theorem get_action_count_eq_spec (md : List MetricFamily) (inc exc : String) :
    get_action_count md inc exc = extract_spec md inc exc := by
  suffices h : ∀ t : ℚ,
      md.foldl
        (fun total_actions family =>
          if family.name = "action" then
            family.samples.foldl
              (fun acc sample =>
                let ns := dictGet sample.labels "namespace"
                if ns ≠ some exc ∧ (inc = "" ∨ ns = some inc) then
                  acc + sample.value
                else acc)
              total_actions
          else total_actions)
        t
      = t + extract_spec md inc exc by
    have := h 0
    simpa [get_action_count] using this
  induction md with
  | nil => intro t; simp [extract_spec]
  | cons f rest ih =>
    intro t
    by_cases hf : f.name = "action"
    · simp only [List.foldl_cons, if_pos hf]
      rw [sample_foldl_eq, ih]
      have hfb : (f.name == "action") = true := by
        simpa using hf
      simp [extract_spec, hfb]
      ring
    · have hfb : (f.name == "action") = false := by
        simpa using hf
      simp only [List.foldl_cons, if_neg hf]
      rw [ih]
      simp [extract_spec, hfb]

/-! ## Step lemmas for the sampling loop -/

theorem scrape_metrics_ok (md : List MetricFamily) :
    scrape_metrics (ScrapeEnv.httpResponse 200 (Except.ok md))
      = PyResult.ret md := rfl

theorem runLoop_interrupted (inc : String) (rest : List IterInput)
    (s : LoopState) (evs : List Event) :
    runLoop inc (IterInput.interrupted :: rest) s evs
      = RunResult.uncaught evs PyExc.keyboardInterrupt := rfl

theorem runLoop_raised (inc : String) (env : ScrapeEnv) (e : PyExc)
    (rest : List IterInput) (s : LoopState) (evs : List Event)
    (h : scrape_metrics env = PyResult.raised e) :
    runLoop inc (IterInput.scrape env :: rest) s evs = handleRaised e s evs := by
  simp only [runLoop, h]

theorem runLoop_ret_none (inc : String) (env : ScrapeEnv)
    (md : List MetricFamily) (rest : List IterInput) (t : ℚ)
    (evs : List Event) (h : scrape_metrics env = PyResult.ret md) :
    runLoop inc (IterInput.scrape env :: rest) ⟨none, t⟩ evs
      = runLoop inc rest
          ⟨some (get_action_count md inc "temporal_system"), t⟩ evs := by
  simp only [runLoop, h]

theorem runLoop_ret_some (inc : String) (env : ScrapeEnv)
    (md : List MetricFamily) (rest : List IterInput) (p t : ℚ)
    (evs : List Event) (h : scrape_metrics env = PyResult.ret md) :
    runLoop inc (IterInput.scrape env :: rest) ⟨some p, t⟩ evs
      = runLoop inc rest
          ⟨some (get_action_count md inc "temporal_system"),
            t + (get_action_count md inc "temporal_system" - p)⟩
          (evs ++ [Event.rateLine
            ((get_action_count md inc "temporal_system" - p) / 1)]) := by
  simp only [runLoop, h]

theorem runLoop_okInput_none (inc : String) (md : List MetricFamily)
    (rest : List IterInput) (t : ℚ) (evs : List Event) :
    runLoop inc (okInput md :: rest) ⟨none, t⟩ evs
      = runLoop inc rest
          ⟨some (get_action_count md inc "temporal_system"), t⟩ evs :=
  runLoop_ret_none inc _ md rest t evs (scrape_metrics_ok md)

theorem runLoop_okInput_some (inc : String) (md : List MetricFamily)
    (rest : List IterInput) (p t : ℚ) (evs : List Event) :
    runLoop inc (okInput md :: rest) ⟨some p, t⟩ evs
      = runLoop inc rest
          ⟨some (get_action_count md inc "temporal_system"),
            t + (get_action_count md inc "temporal_system" - p)⟩
          (evs ++ [Event.rateLine
            ((get_action_count md inc "temporal_system" - p) / 1)]) :=
  runLoop_ret_some inc _ md rest p t evs (scrape_metrics_ok md)

theorem get_action_count_simpleSnap (v : ℚ) :
    get_action_count (simpleSnap v) "" "temporal_system" = v := by
  simp [get_action_count, simpleSnap, dictGet]

theorem getLastD_map {α β : Type} (f : α → β) (l : List α) (a : α) :
    (l.map f).getLastD (f a) = f (l.getLastD a) := by
  induction l generalizing a with
  | nil => rfl
  | cons b bs ih =>
    simp only [List.map_cons, List.getLastD_cons]
    exact ih b

theorem rateValues_append (a b : List Event) :
    rateValues (a ++ b) = rateValues a ++ rateValues b := by
  simp [rateValues]

theorem rateValues_total_completed (t : ℚ) :
    rateValues [Event.totalLine t, Event.completedLine] = [] := rfl

theorem rateValues_map_rateLine (rs : List ℚ) :
    rateValues (rs.map Event.rateLine) = rs := by
  induction rs with
  | nil => rfl
  | cons r rest ih =>
    show r :: rateValues (rest.map Event.rateLine) = r :: rest
    rw [ih]

/-- Consuming a run of successful scrapes from a state whose
`last_action_count` is set: the final total telescopes to the last
extracted count minus the baseline, one rate line is emitted per
iteration, and the loop reaches the epilogue. -/
theorem runLoop_okRun_from_some (inc : String)
    (mds : List (List MetricFamily)) (p t : ℚ) (evs : List Event) :
    ∃ rates : List ℚ,
      runLoop inc (okRun mds) ⟨some p, t⟩ evs
        = finishRun
            ⟨some ((mds.map
                (fun md => get_action_count md inc "temporal_system")).getLastD p),
              t + ((mds.map
                (fun md => get_action_count md inc "temporal_system")).getLastD p - p)⟩
            (evs ++ rates.map Event.rateLine)
      ∧ rates.length = mds.length := by
  induction mds generalizing p t evs with
  | nil =>
    refine ⟨[], ?_, rfl⟩
    simp [okRun, runLoop]
  | cons md ms ih =>
    obtain ⟨rates, heq, hlen⟩ :=
      ih (get_action_count md inc "temporal_system")
        (t + (get_action_count md inc "temporal_system" - p))
        (evs ++ [Event.rateLine
          ((get_action_count md inc "temporal_system" - p) / 1)])
    refine ⟨(get_action_count md inc "temporal_system" - p) / 1 :: rates,
      ?_, by simp [hlen]⟩
    rw [show okRun (md :: ms) = okInput md :: okRun ms from rfl,
      runLoop_okInput_some, heq]
    have htot :
        t + (get_action_count md inc "temporal_system" - p) +
          ((ms.map (fun md => get_action_count md inc "temporal_system")).getLastD
              (get_action_count md inc "temporal_system") -
            get_action_count md inc "temporal_system")
        = t + ((ms.map
            (fun md => get_action_count md inc "temporal_system")).getLastD
              (get_action_count md inc "temporal_system") - p) := by
      ring
    rw [htot]
    simp only [List.map_cons, List.getLastD_cons, List.append_assoc,
      List.singleton_append]

/-- Consuming a run of successful scrapes before an arbitrary tail, from
any state: the loop reaches the tail having emitted only rate lines. -/
theorem runLoop_okRun_append (inc : String)
    (pre : List (List MetricFamily)) (tail : List IterInput)
    (s : LoopState) (evs : List Event) :
    ∃ s1 : LoopState, ∃ rates : List ℚ,
      runLoop inc (okRun pre ++ tail) s evs
        = runLoop inc tail s1 (evs ++ rates.map Event.rateLine) := by
  induction pre generalizing s evs with
  | nil => exact ⟨s, [], by simp [okRun]⟩
  | cons md ms ih =>
    obtain ⟨last, total⟩ := s
    cases last with
    | none =>
      obtain ⟨s1, rates, heq⟩ :=
        ih ⟨some (get_action_count md inc "temporal_system"), total⟩ evs
      refine ⟨s1, rates, ?_⟩
      rw [show okRun (md :: ms) ++ tail = okInput md :: (okRun ms ++ tail)
        from rfl, runLoop_okInput_none, heq]
    | some p =>
      obtain ⟨s1, rates, heq⟩ :=
        ih ⟨some (get_action_count md inc "temporal_system"),
            total + (get_action_count md inc "temporal_system" - p)⟩
          (evs ++ [Event.rateLine
            ((get_action_count md inc "temporal_system" - p) / 1)])
      refine ⟨s1, (get_action_count md inc "temporal_system" - p) / 1 :: rates, ?_⟩
      rw [show okRun (md :: ms) ++ tail = okInput md :: (okRun ms ++ tail)
        from rfl, runLoop_okInput_some, heq]
      simp

theorem runMain_def (inc : String) (inputs : List IterInput) :
    runMain inc inputs = runLoop inc inputs ⟨none, 0⟩ [] := rfl

/-! ## Lemmas about the exclusion filter -/

theorem qualifies_of_excluded (inc : String) (s : Sample)
    (h : dictGet s.labels "namespace" = some "temporal_system") :
    qualifies inc "temporal_system" s = false := by
  simp [qualifies, h]

theorem qualifies_and_not_excluded (inc : String) (a : Sample) :
    (qualifies inc "temporal_system" a &&
      !decide (dictGet a.labels "namespace" = some "temporal_system"))
      = qualifies inc "temporal_system" a := by
  by_cases h : dictGet a.labels "namespace" = some "temporal_system"
  · simp [qualifies_of_excluded inc a h]
  · simp [h]

theorem filter_dropSamples (inc : String) (samples : List Sample) :
    (samples.filter
        (fun s => dictGet s.labels "namespace" ≠ some "temporal_system")).filter
      (qualifies inc "temporal_system")
      = samples.filter (qualifies inc "temporal_system") := by
  rw [List.filter_filter]
  refine List.filter_congr (fun a _ => ?_)
  by_cases h : dictGet a.labels "namespace" = some "temporal_system"
  · simp [qualifies_of_excluded inc a h]
  · simp [h]

theorem extract_spec_cons (f : MetricFamily) (rest : List MetricFamily)
    (inc exc : String) :
    extract_spec (f :: rest) inc exc
      = (if f.name == "action" then
          ((f.samples.filter (qualifies inc exc)).map (fun s => s.value)).sum
        else 0) + extract_spec rest inc exc := by
  cases h : f.name == "action" <;>
    simp [extract_spec, List.filter_cons, h, List.filter_append,
      List.map_append, List.sum_append]

theorem extract_spec_dropExcluded (md : List MetricFamily) (inc : String) :
    extract_spec (dropExcluded md) inc "temporal_system"
      = extract_spec md inc "temporal_system" := by
  induction md with
  | nil => rfl
  | cons f rest ih =>
    simp only [dropExcluded, List.map_cons] at ih ⊢
    rw [extract_spec_cons, extract_spec_cons, ih]
    cases h : f.name == "action" <;>
      simp [h, qualifies_and_not_excluded]

theorem qualifies_ts (s : Sample) :
    qualifies "temporal_system" "temporal_system" s = false := by
  by_cases h : dictGet s.labels "namespace" = some "temporal_system"
  · simp [qualifies, h]
  · simp [qualifies, h]

theorem extract_spec_ts (md : List MetricFamily) :
    extract_spec md "temporal_system" "temporal_system" = 0 := by
  induction md with
  | nil => rfl
  | cons f rest ih =>
    rw [extract_spec_cons]
    have hfilter :
        f.samples.filter (qualifies "temporal_system" "temporal_system") = [] := by
      induction f.samples with
      | nil => rfl
      | cons s ss ihs => simp [List.filter_cons, qualifies_ts, ihs]
    simp [hfilter, ih]

/-! ## Claim theorems -/

/-- Claim C1: for every snapshot and every inclusion filter, with the fixed
exclusion `"temporal_system"`, `get_action_count` returns the sum of the
`value` fields of exactly the qualifying samples of the families named
`"action"` (the spec-side `extract_spec`); in particular it returns 0 when
no family is named `"action"` or no sample qualifies, since the qualifying
sample list is then empty and its sum is 0. -/
theorem extract_matches_spec (metrics_data : List MetricFamily)
    (included_namespace : String) :
    get_action_count metrics_data included_namespace "temporal_system"
      = extract_spec metrics_data included_namespace "temporal_system" :=
  get_action_count_eq_spec metrics_data included_namespace "temporal_system"

/-- Claim C2: on the extracted counter sequence 100, 107, 107, 120 observed
on four successive successful iterations, the accumulated total is 20 and
the rate observations emitted are, in order, 7, 0, 13. -/
theorem delta_accumulation_example :
    runMain ""
        (okRun [simpleSnap 100, simpleSnap 107, simpleSnap 107, simpleSnap 120])
      = RunResult.finished
          [Event.rateLine 7, Event.rateLine 0, Event.rateLine 13,
            Event.totalLine 20, Event.completedLine] 20
    ∧ rateValues (runMain ""
        (okRun [simpleSnap 100, simpleSnap 107, simpleSnap 107,
          simpleSnap 120])).events
      = [7, 0, 13] := by
  have h : runMain ""
      (okRun [simpleSnap 100, simpleSnap 107, simpleSnap 107, simpleSnap 120])
      = RunResult.finished
          [Event.rateLine 7, Event.rateLine 0, Event.rateLine 13,
            Event.totalLine 20, Event.completedLine] 20 := by
    rw [runMain_def,
      show okRun [simpleSnap 100, simpleSnap 107, simpleSnap 107, simpleSnap 120]
        = okInput (simpleSnap 100) :: okInput (simpleSnap 107) ::
            okInput (simpleSnap 107) :: okInput (simpleSnap 120) :: [] from rfl,
      runLoop_okInput_none, runLoop_okInput_some, runLoop_okInput_some,
      runLoop_okInput_some]
    simp only [get_action_count_simpleSnap]
    show finishRun _ _ = _
    norm_num [finishRun]
  exact ⟨h, by rw [h]; rfl⟩

/-- Claim C3: a sample whose `namespace` label is `"temporal_system"` never
contributes to the extracted count, for every snapshot and every inclusion
filter: deleting all such samples does not change the result, and with the
inclusion filter itself set to `"temporal_system"` the result is 0. -/
theorem exclusion_invariant (metrics_data : List MetricFamily)
    (included_namespace : String) :
    get_action_count metrics_data included_namespace "temporal_system"
      = get_action_count (dropExcluded metrics_data) included_namespace
          "temporal_system"
    ∧ get_action_count metrics_data "temporal_system" "temporal_system" = 0 := by
  constructor
  · rw [get_action_count_eq_spec, get_action_count_eq_spec,
      extract_spec_dropExcluded]
  · rw [get_action_count_eq_spec, extract_spec_ts]

/-- Claim C4: if the first iteration scrapes successfully and the second
iteration's fetch raises a (caught) failure, the loop stops without
beginning a third iteration, and the reported total is exactly the delta
accumulated before the failure - here 0, since the sole successful
iteration only set the baseline. -/
theorem fail_fast_second_iteration (inc : String) (env1 env2 : ScrapeEnv)
    (md : List MetricFamily) (e : PyExc) (rest : List IterInput)
    (h1 : scrape_metrics env1 = PyResult.ret md)
    (h2 : scrape_metrics env2 = PyResult.raised e)
    (he : PyExc.isException e = true) :
    runMain inc (IterInput.scrape env1 :: IterInput.scrape env2 :: rest)
      = RunResult.finished
          [Event.errorLine ("An error occurred: " ++ PyExc.message e),
            Event.totalLine 0, Event.completedLine] 0
    ∧ iterationsAttempted
        (IterInput.scrape env1 :: IterInput.scrape env2 :: rest) = 2 := by
  constructor
  · rw [runMain_def, runLoop_ret_none inc env1 md _ 0 [] h1,
      runLoop_raised inc env2 e rest _ [] h2]
    simp [handleRaised, he, finishRun]
  · simp [iterationsAttempted, iterRaises, h1, h2]

theorem fail_fast_second_iteration_witness :
    (scrape_metrics (ScrapeEnv.httpResponse 200 (Except.ok (simpleSnap 1)))
        = PyResult.ret (simpleSnap 1)
      ∧ scrape_metrics (ScrapeEnv.httpResponse 500 (Except.ok []))
          = PyResult.raised (PyExc.requestError ("HTTP error " ++ toString 500))
      ∧ PyExc.isException (PyExc.requestError ("HTTP error " ++ toString 500))
          = true)
    ∧ (runMain ""
          (IterInput.scrape (ScrapeEnv.httpResponse 200 (Except.ok (simpleSnap 1)))
            :: IterInput.scrape (ScrapeEnv.httpResponse 500 (Except.ok []))
            :: [okInput (simpleSnap 2)])
        = RunResult.finished
            [Event.errorLine ("An error occurred: "
                ++ PyExc.message (PyExc.requestError ("HTTP error " ++ toString 500))),
              Event.totalLine 0, Event.completedLine] 0
      ∧ iterationsAttempted
          (IterInput.scrape (ScrapeEnv.httpResponse 200 (Except.ok (simpleSnap 1)))
            :: IterInput.scrape (ScrapeEnv.httpResponse 500 (Except.ok []))
            :: [okInput (simpleSnap 2)]) = 2) :=
  ⟨⟨rfl, rfl, rfl⟩,
    fail_fast_second_iteration "" _ _ (simpleSnap 1) _ [okInput (simpleSnap 2)]
      rfl rfl rfl⟩

/-- Claim C5 counterexample: on a response with HTTP status 500,
`scrape_metrics` raises (the `raise_for_status` path) instead of returning
a failure value to its caller, refuting "returns a FetchFailure value ...
and never raises an error out of the fetch function itself". -/
theorem scrape_raises_counterexample :
    scrape_metrics (ScrapeEnv.httpResponse 500 (Except.ok []))
      = PyResult.raised (PyExc.requestError ("HTTP error " ++ toString 500)) := rfl

/-- Claim C5 amended: on any network error, non-success HTTP status
(400-599) or malformed response body, `scrape_metrics` raises an exception
carrying a diagnostic message; the exception is an `Exception` subclass, so
the sampling loop's `except Exception` handler receives it and treats the
failure as a normal outcome.  (The code raises rather than returning a
failure value; no failure value constructor exists in `scrape_metrics`.) -/
theorem scrape_failure_raises_caught_exception (env : ScrapeEnv)
    (h : failureEnv env) :
    ∃ e : PyExc, scrape_metrics env = PyResult.raised e
      ∧ PyExc.isException e = true := by
  cases env with
  | netError msg => exact ⟨.requestError msg, rfl, rfl⟩
  | httpResponse status parseResult =>
    by_cases hs : 400 ≤ status ∧ status < 600
    · exact ⟨.requestError ("HTTP error " ++ toString status),
        by simp [scrape_metrics, hs], rfl⟩
    · rcases h with h | ⟨m, hm⟩
      · exact absurd h hs
      · subst hm
        exact ⟨.parseError m, by simp [scrape_metrics, hs], rfl⟩

theorem scrape_failure_raises_caught_exception_witness :
    failureEnv (ScrapeEnv.httpResponse 500 (Except.ok []))
    ∧ ∃ e : PyExc,
        scrape_metrics (ScrapeEnv.httpResponse 500 (Except.ok []))
          = PyResult.raised e ∧ PyExc.isException e = true :=
  ⟨Or.inl (by decide),
    scrape_failure_raises_caught_exception _ (Or.inl (by decide))⟩

/-- Claim C6 counterexample: with one successful sample followed by an
external interrupt, the run aborts with the uncaught `KeyboardInterrupt`
(which `except Exception` does not catch) and the printed lines are empty -
no final total line is emitted and termination is abrupt, refuting "emits
the final accumulated total line and exits with exit code 0". -/
theorem interrupt_abrupt_counterexample :
    runMain "" [okInput (simpleSnap 100), IterInput.interrupted]
      = RunResult.uncaught [] PyExc.keyboardInterrupt := by
  rw [runMain_def, runLoop_okInput_none, runLoop_interrupted]

/-- Claim C6 amended: an external interrupt during sampling is NOT caught
by the loop's `except Exception` handler (`KeyboardInterrupt` is not an
`Exception` subclass); the exception escapes `main`, so however many
successful samples preceded it, the run ends abruptly having printed only
per-interval rate lines - never the final total line - and the process
exits with a traceback rather than exit code 0. -/
theorem interrupt_escapes_without_total (inc : String)
    (pre : List (List MetricFamily)) (rest : List IterInput) :
    ∃ rates : List ℚ,
      runMain inc (okRun pre ++ IterInput.interrupted :: rest)
        = RunResult.uncaught (rates.map Event.rateLine)
            PyExc.keyboardInterrupt := by
  obtain ⟨s1, rates, heq⟩ :=
    runLoop_okRun_append inc pre (IterInput.interrupted :: rest) ⟨none, 0⟩ []
  refine ⟨rates, ?_⟩
  rw [runMain_def, heq, runLoop_interrupted]
  simp

/-- Claim C7: the first successful sample of a run never produces a rate
observation: processing it from the initial state (no previous counter
value) only records the baseline and emits nothing, and over any run of n
successful samples exactly n - 1 rate observations are emitted. -/
theorem first_sample_no_observation (inc : String) (env : ScrapeEnv)
    (md : List MetricFamily) (rest : List IterInput)
    (mds : List (List MetricFamily))
    (h : scrape_metrics env = PyResult.ret md) :
    runLoop inc (IterInput.scrape env :: rest) initState []
        = runLoop inc rest
            ⟨some (get_action_count md inc "temporal_system"), 0⟩ []
    ∧ (rateValues (runMain inc (okRun mds)).events).length
        = mds.length - 1 := by
  constructor
  · exact runLoop_ret_none inc env md rest 0 [] h
  · cases mds with
    | nil => rfl
    | cons md0 ms =>
      rw [runMain_def,
        show okRun (md0 :: ms) = okInput md0 :: okRun ms from rfl,
        runLoop_okInput_none]
      obtain ⟨rates, heq, hlen⟩ :=
        runLoop_okRun_from_some inc ms
          (get_action_count md0 inc "temporal_system") 0 []
      rw [heq]
      simp [finishRun, RunResult.events, rateValues_append,
        rateValues_map_rateLine, rateValues_total_completed, hlen]

theorem first_sample_no_observation_witness :
    scrape_metrics (ScrapeEnv.httpResponse 200 (Except.ok (simpleSnap 1)))
        = PyResult.ret (simpleSnap 1)
    ∧ (runLoop ""
          (IterInput.scrape (ScrapeEnv.httpResponse 200 (Except.ok (simpleSnap 1)))
            :: []) initState []
          = runLoop "" []
              ⟨some (get_action_count (simpleSnap 1) "" "temporal_system"), 0⟩ []
      ∧ (rateValues (runMain ""
            (okRun [simpleSnap 1, simpleSnap 2])).events).length
          = [simpleSnap 1, simpleSnap 2].length - 1) :=
  ⟨rfl, first_sample_no_observation "" _ (simpleSnap 1) []
    [simpleSnap 1, simpleSnap 2] rfl⟩

/-- Claim C8: when the extracted count is lower than the previous count,
the negative delta is added to the total as-is (no clamping): the total
strictly decreases by the difference and the emitted rate observation for
that interval is negative. -/
theorem negative_delta_unclamped (inc : String) (md : List MetricFamily)
    (rest : List IterInput) (p t : ℚ) (evs : List Event)
    (h : get_action_count md inc "temporal_system" < p) :
    runLoop inc (okInput md :: rest) ⟨some p, t⟩ evs
        = runLoop inc rest
            ⟨some (get_action_count md inc "temporal_system"),
              t + (get_action_count md inc "temporal_system" - p)⟩
            (evs ++ [Event.rateLine
              ((get_action_count md inc "temporal_system" - p) / 1)])
    ∧ t + (get_action_count md inc "temporal_system" - p) < t
    ∧ (get_action_count md inc "temporal_system" - p) / 1 < 0 := by
  refine ⟨runLoop_okInput_some inc md rest p t evs, by linarith, ?_⟩
  rw [div_one]
  linarith

theorem negative_delta_unclamped_witness :
    get_action_count (simpleSnap 3) "" "temporal_system" < 5
    ∧ (runLoop "" (okInput (simpleSnap 3) :: []) ⟨some 5, 0⟩ []
          = runLoop "" []
              ⟨some (get_action_count (simpleSnap 3) "" "temporal_system"),
                0 + (get_action_count (simpleSnap 3) "" "temporal_system" - 5)⟩
              ([] ++ [Event.rateLine
                ((get_action_count (simpleSnap 3) "" "temporal_system" - 5) / 1)])
      ∧ 0 + (get_action_count (simpleSnap 3) "" "temporal_system" - 5) < 0
      ∧ (get_action_count (simpleSnap 3) "" "temporal_system" - 5) / 1 < 0) :=
  ⟨by rw [get_action_count_simpleSnap]; norm_num,
    negative_delta_unclamped "" (simpleSnap 3) [] 5 0 []
      (by rw [get_action_count_simpleSnap]; norm_num)⟩

/-- Claim C9: in a run in which every fetch succeeds, the accumulated total
telescopes: after the successful iterations on snapshots md, rest the final
total is the last extracted count minus the first, independent of all
intermediate extracted counts. -/
theorem total_telescopes (inc : String) (md : List MetricFamily)
    (rest : List (List MetricFamily)) :
    ∃ events : List Event,
      runMain inc (okRun (md :: rest))
        = RunResult.finished events
            (get_action_count (rest.getLastD md) inc "temporal_system"
              - get_action_count md inc "temporal_system") := by
  rw [runMain_def,
    show okRun (md :: rest) = okInput md :: okRun rest from rfl,
    runLoop_okInput_none]
  obtain ⟨rates, heq, _⟩ :=
    runLoop_okRun_from_some inc rest
      (get_action_count md inc "temporal_system") 0 []
  rw [heq]
  have hm := getLastD_map
    (fun md => get_action_count md inc "temporal_system") rest md
  have htot : (0 : ℚ) +
      ((rest.map (fun md => get_action_count md inc "temporal_system")).getLastD
          (get_action_count md inc "temporal_system")
        - get_action_count md inc "temporal_system")
      = get_action_count (rest.getLastD md) inc "temporal_system"
        - get_action_count md inc "temporal_system" := by
    rw [zero_add, hm]
  rw [htot]
  exact ⟨_, rfl⟩

/-- Claim C10: a supplied `--time-window-seconds` of 0 is falsy, so the
dispatch takes the `print_readme()` branch: the README is printed and the
process exits without running `main`, hence without any fetch or sampling
loop. -/
theorem zero_window_prints_readme (prometheus_url included_namespace : String) :
    dispatch 0 prometheus_url included_namespace = ProgramAction.readme
    ∧ startsSampling (dispatch 0 prometheus_url included_namespace) = false :=
  ⟨rfl, rfl⟩

end ActionsCount
